import Mathlib

/-!
Verification of the zone-hardening orchestrator in `cfso.py`.

The script inspects a DNS zone through a provider client and applies a
fixed set of hardening operations (DNSSEC patch, placeholder AAAA record,
TLS/HSTS zone settings, SPF record), then submits the domain to the HSTS
preload endpoint.  Below is a shallow embedding: the zone is a list of DNS
records, provider calls that can fail are driven by a `Provider` oracle of
success flags, and the HTTP response of the preload endpoint is a value of
`HttpResponse`.  Each definition is translated directly from the
corresponding lines of `cfso.py`.
-/

/-- Substring matching at the head of a character list
(Python `str.startswith`, used to build the `in` operator below). -/
def startsWithChars : List Char → List Char → Bool
  | [], _ => true
  | _ :: _, [] => false
  | a :: as, b :: bs => a == b && startsWithChars as bs

/-- Occurrence of `needle` anywhere in the character list. -/
def hasSubChars (needle : List Char) : List Char → Bool
  | [] => startsWithChars needle []
  | b :: bs => startsWithChars needle (b :: bs) || hasSubChars needle bs

/-- Python substring test `needle in hay` on strings. -/
def containsSub (hay needle : String) : Bool :=
  hasSubChars needle.toList hay.toList

/-- A DNS record as exchanged with the provider: the dictionaries passed to
and returned by `cf.zones.dns_records`.  `proxied` is optional because the
SPF creation payload in the source omits the key. -/
structure DnsRecord where
  rtype : String
  name : String
  content : String
  ttl : Nat
  proxied : Option Bool
deriving DecidableEq

/-- Remote zone state held by the provider: its DNS records and the DNSSEC
status flag patched by the script. -/
structure ZoneState where
  records : List DnsRecord
  dnssecActive : Bool
deriving DecidableEq

/-- Provider read `dns_records.get(zone_id, params={type, name})`:
records filtered by type and name. -/
def records_filter (recs : List DnsRecord) (t n : String) : List DnsRecord :=
  recs.filter (fun r => r.rtype == t && r.name == n)

def dns_records_get (s : ZoneState) (t n : String) : List DnsRecord :=
  records_filter s.records t n

/-- Provider read `dns_records.get(zone_id, params={type})` with no name
filter, as in the SPF precondition of the source. -/
def records_filter_type (recs : List DnsRecord) (t : String) : List DnsRecord :=
  recs.filter (fun r => r.rtype == t)

def dns_records_get_type (s : ZoneState) (t : String) : List DnsRecord :=
  records_filter_type s.records t

/-- Success flags for the fallible provider calls: a `false` flag models the
call raising `CloudFlareAPIError`. -/
structure Provider where
  queryOk : String → String → Bool
  txtQueryOk : Bool
  createOk : DnsRecord → Bool
  dnssecOk : Bool
  settingOk : String → Bool

/-- The provider with every call succeeding (the unchanged cooperative
remote assumed by the idempotence property). -/
def providerOk : Provider :=
  ⟨fun _ _ => true, true, fun _ => true, true, fun _ => true⟩

/-- `check_dns_record_exists` of the source: iterate the candidate types in
order, return `(True, record_type)` on the first type whose query yields
records, `(False, None)` when none does.  A query that raises propagates
out of the loop (there is no handler inside the function). -/
def check_dns_record_exists (p : Provider) (s : ZoneState) :
    List String → String → Except String (Bool × Option String)
  | [], _ => .ok (false, none)
  | t :: rest, name =>
    if p.queryOk t name then
      if dns_records_get s t name = [] then
        check_dns_record_exists p s rest name
      else .ok (true, some t)
    else .error ("CloudFlareAPIError " ++ t)

/-- The pure value computed by `check_dns_record_exists` when no provider
call fails. -/
def check_pure (s : ZoneState) : List String → String → Bool × Option String
  | [], _ => (false, none)
  | t :: rest, name =>
    if dns_records_get s t name = [] then check_pure s rest name
    else (true, some t)

/-- Outcome of one hardening operation, as printed by `print_status`. -/
inductive Outcome
  | applied (rec : Option DnsRecord)
  | skipped (detail : String)
  | failed (detail : String)
deriving DecidableEq

/-- Python `str(x)` for the optional record type interpolated into the
skip message. -/
def optStr : Option String → String
  | some t => t
  | none => "None"

/-- The AAAA placeholder record posted by the source:
`name @, type AAAA, content 100::, ttl 120, proxied True`. -/
def aaaa_record : DnsRecord :=
  ⟨"AAAA", "@", "100::", 120, some true⟩

/-- The DNSSEC block: `cf.zones.dnssec.patch(zone_id, data=...)` inside its
own try, reporting success or failure. -/
def dnssec_block (p : Provider) (s : ZoneState) : Outcome × ZoneState :=
  if p.dnssecOk then (.applied none, { s with dnssecActive := true })
  else (.failed "Failed to enable DNSSEC", s)

/-- The AAAA block of `main`: one try around the existence check over
AAAA, A, CNAME at the apex and the conditional record creation. -/
def aaaa_block (p : Provider) (s : ZoneState) : Outcome × ZoneState :=
  match check_dns_record_exists p s ["AAAA", "A", "CNAME"] "@" with
  | .error e => (.failed ("Failed to manage DNS records: " ++ e), s)
  | .ok rr =>
    if rr.1 then
      (.skipped ("An existing " ++ optStr rr.2 ++
        " record prevents AAAA record creation for the apex."), s)
    else if p.createOk aaaa_record then
      (.applied (some aaaa_record), { s with records := s.records ++ [aaaa_record] })
    else
      (.failed "Failed to manage DNS records: record creation", s)

/-- The six zone settings patched by the source, in source order. -/
def settings_keys : List String :=
  ["ssl", "min_tls_version", "tls_1_3", "always_use_https",
   "automatic_https_rewrites", "security_header"]

/-- Result of the settings block: the settings reported as updated, the
patch calls actually made, and the single caught failure, if any. -/
structure SettingsResult where
  reported : List String
  attempted : List String
  err : Option String
deriving DecidableEq

/-- The loop `for setting, data in settings.items(): patch; print` inside
one try: a raising patch ends the loop and is reported once. -/
def settings_go (p : Provider) : List String → SettingsResult
  | [] => ⟨[], [], none⟩
  | k :: rest =>
    if p.settingOk k then
      let r := settings_go p rest
      ⟨k :: r.reported, k :: r.attempted, r.err⟩
    else ⟨[], [k], some ("Failed to update zone settings: " ++ k)⟩

def settings_block (p : Provider) : SettingsResult :=
  settings_go p settings_keys

/-- The TXT record posted by the SPF block:
`name @, type TXT, content v=spf1 -all, ttl 120` (no proxied key). -/
def spf_record : DnsRecord :=
  ⟨"TXT", "@", "v=spf1 -all", 120, none⟩

/-- The SPF block of `main`: fetch all TXT records of the zone (no name
filter in the source), skip when any content contains `v=spf1`, otherwise
post the hard-fail SPF record; all inside one try. -/
def spf_block (p : Provider) (s : ZoneState) : Outcome × ZoneState :=
  if p.txtQueryOk then
    if (dns_records_get_type s "TXT").any (fun r => containsSub r.content "v=spf1") then
      (.skipped "Existing SPF record found. No new SPF record added.", s)
    else if p.createOk spf_record then
      (.applied (some spf_record), { s with records := s.records ++ [spf_record] })
    else (.failed "Failed to manage SPF records: record creation", s)
  else (.failed "Failed to manage SPF records: query", s)

/-- Per-operation report of one hardening pass. -/
structure HardenReport where
  dnssec : Outcome
  aaaa : Outcome
  settings : SettingsResult
  spf : Outcome
deriving DecidableEq

/-- The four hardening blocks of `main` in source order, threading the
remote zone state. -/
def harden (p : Provider) (s : ZoneState) : HardenReport × ZoneState :=
  let d := dnssec_block p s
  let a := aaaa_block p d.2
  let st := settings_block p
  let f := spf_block p a.2
  (⟨d.1, a.1, st, f.1⟩, f.2)

/-- One message object of the preload endpoint response
(`errors` / `warnings` entries). -/
structure PreloadMsg where
  summary : String
  message : String
deriving DecidableEq

/-- The decoded JSON body of the preload endpoint: optional `errors` and
`warnings` arrays (`none` models an absent key). -/
structure PreloadJson where
  errors : Option (List PreloadMsg)
  warnings : Option (List PreloadMsg)
deriving DecidableEq

/-- The HTTP response of `requests.post` to the preload endpoint.
`jsonBody = none` models a body on which `response.json()` raises. -/
structure HttpResponse where
  status_code : Nat
  jsonBody : Option PreloadJson
  text : String
deriving DecidableEq

/-- One status line printed by `submit_domain_to_hsts_preload`. -/
inductive PreloadEvent
  | errorItem (summary message : String)
  | successNote
  | warningItem (summary message : String)
  | transportFail (code : Nat) (text : String)
deriving DecidableEq

/-- The warning lines: printed whenever the `warnings` key is present. -/
def warn_events (j : PreloadJson) : List PreloadEvent :=
  match j.warnings with
  | some ws => ws.map (fun w => PreloadEvent.warningItem w.summary w.message)
  | none => []

/-- The error-branch lines: entered only when the `errors` key is present;
the success line is printed only inside this branch, when the list is
empty (the source nests `if not response_json.get("errors")` under
`if "errors" in response_json`). -/
def error_events (j : PreloadJson) : List PreloadEvent :=
  match j.errors with
  | some es =>
      es.map (fun e => PreloadEvent.errorItem e.summary e.message) ++
        (if es = [] then [PreloadEvent.successNote] else [])
  | none => []

/-- The lines printed for a decoded 200 response. -/
def classify_preload (j : PreloadJson) : List PreloadEvent :=
  error_events j ++ warn_events j

/-- `submit_domain_to_hsts_preload` applied to an arrived HTTP response:
status 200 decodes the JSON (raising on a malformed body, there is no
handler) and classifies it; any other status prints the transport-failure
line with the status code and the raw text. -/
def submit_domain_to_hsts_preload (r : HttpResponse) :
    Except String (List PreloadEvent) :=
  if r.status_code = 200 then
    match r.jsonBody with
    | none => .error "requests.exceptions.JSONDecodeError"
    | some j => .ok (classify_preload j)
  else .ok [.transportFail r.status_code r.text]

/-- The full preload step including the network call: a raised transport
exception from `requests.post` propagates (the call site has no try). -/
def preload_step (net : Except String HttpResponse) :
    Except String (List PreloadEvent) :=
  match net with
  | .error e => .error e
  | .ok r => submit_domain_to_hsts_preload r

/-- Module constant `CLOUDFLARE_EMAIL` of the source. -/
def CLOUDFLARE_EMAIL : String := ""

/-- Module constant `CLOUDFLARE_API_KEY` of the source. -/
def CLOUDFLARE_API_KEY : String := ""

/-- `os.environ.pop(k, None)`: the environment with one key removed. -/
def env_pop (env : String → Option String) (k : String) :
    String → Option String :=
  fun x => if x = k then none else env x

/-- External inputs of one run of `main`: the argument vector, the process
environment, the zone lookup result (ids of the matching zones, or a
raised `CloudFlareAPIError`), the provider behaviour, the remote zone
state, and the preload network result. -/
structure World where
  argv : List String
  env : String → Option String
  zones : Except String (List String)
  provider : Provider
  state : ZoneState
  net : Except String HttpResponse

/-- The observable outcome of the part of `main` after authentication:
process exit code, the resolved zone id, the per-operation outcomes
(`none` when never reached), the preload lines, whether the final
`Configuration complete.` notice was printed, and the final remote state. -/
structure RunBody where
  exitCode : Nat
  zoneId : Option String
  dnssecOutcome : Option Outcome
  aaaaOutcome : Option Outcome
  settingsOutcome : Option SettingsResult
  spfOutcome : Option Outcome
  preloadEvents : Option (List PreloadEvent)
  completion : Bool
  finalState : ZoneState

/-- The body of a run that stopped at zone resolution: `main` returns
normally, so the interpreter exits with status 0. -/
def noRunBody (s : ZoneState) : RunBody :=
  ⟨0, none, none, none, none, none, none, false, s⟩

/-- Zone resolution onwards: zero matching zones or a raised lookup error
print a failure and return; otherwise the first zone id is used, the four
hardening blocks run, and the preload step runs last.  An exception
escaping the preload step aborts `main`, so the completion notice is not
printed and the interpreter exits with status 1. -/
def run_body (w : World) : RunBody :=
  match w.zones with
  | .error _ => noRunBody w.state
  | .ok [] => noRunBody w.state
  | .ok (z :: _) =>
    let hr := harden w.provider w.state
    match preload_step w.net with
    | .error _ =>
        ⟨1, some z, some hr.1.dnssec, some hr.1.aaaa, some hr.1.settings,
         some hr.1.spf, none, false, hr.2⟩
    | .ok evs =>
        ⟨0, some z, some hr.1.dnssec, some hr.1.aaaa, some hr.1.settings,
         some hr.1.spf, some evs, true, hr.2⟩

/-- Full report of one run of `main`: the environment after the three
`os.environ.pop` calls, the credentials the client was initialized with
(`none` when `get_zone_name` exited first), and the run body. -/
structure RunReport where
  envAfter : String → Option String
  clientCreds : Option (String × String)
  body : RunBody

/-- `main` of the source (named `cfso_main` here because Lean reserves
`main`): pop `CF_API_KEY`, `CF_API_EMAIL`, `CF_API_TOKEN` from the
environment, read the zone name from the arguments (exiting with status 1
unless exactly one argument was given), initialize the client from the
module constants, then run the body. -/
def cfso_main (w : World) : RunReport :=
  let env1 :=
    env_pop (env_pop (env_pop w.env "CF_API_KEY") "CF_API_EMAIL") "CF_API_TOKEN"
  if w.argv.length = 2 then
    { envAfter := env1,
      clientCreds := some (CLOUDFLARE_EMAIL, CLOUDFLARE_API_KEY),
      body := run_body w }
  else
    { envAfter := env1, clientCreds := none,
      body := ⟨1, none, none, none, none, none, none, false, w.state⟩ }

/-! ## Helper lemmas -/

lemma check_providerOk (s : ZoneState) (ts : List String) (name : String) :
    check_dns_record_exists providerOk s ts name = .ok (check_pure s ts name) := by
  induction ts with
  | nil => rfl
  | cons t rest ih =>
    simp only [check_dns_record_exists, check_pure, providerOk, if_true]
    split
    · exact ih
    · rfl

lemma check_pure_head_miss (s : ZoneState) (t : String) (rest : List String)
    (name : String) (h : dns_records_get s t name = []) :
    check_pure s (t :: rest) name = check_pure s rest name := by
  simp [check_pure, h]

lemma check_pure_head_hit (s : ZoneState) (t : String) (rest : List String)
    (name : String) (h : dns_records_get s t name ≠ []) :
    check_pure s (t :: rest) name = (true, some t) := by
  simp [check_pure, h]

lemma check_pure_all_miss (s : ZoneState) (name : String) :
    ∀ ts : List String, (∀ u ∈ ts, dns_records_get s u name = []) →
      check_pure s ts name = (false, none) := by
  intro ts
  induction ts with
  | nil => intro _; rfl
  | cons t rest ih =>
    intro h
    rw [check_pure_head_miss s t rest name (h t (by simp))]
    exact ih (fun u hu => h u (by simp [hu]))

lemma check_pure_first (s : ZoneState) (name : String) (t : String)
    (ts2 : List String) (ht : dns_records_get s t name ≠ []) :
    ∀ ts1 : List String, (∀ u ∈ ts1, dns_records_get s u name = []) →
      check_pure s (ts1 ++ t :: ts2) name = (true, some t) := by
  intro ts1
  induction ts1 with
  | nil =>
    intro _
    simpa using check_pure_head_hit s t ts2 name ht
  | cons u rest ih =>
    intro h
    rw [List.cons_append, check_pure_head_miss s u _ name (h u (by simp))]
    exact ih (fun v hv => h v (by simp [hv]))

lemma check_pure_found (s : ZoneState) (name : String) :
    ∀ ts : List String, (∃ u ∈ ts, dns_records_get s u name ≠ []) →
      (check_pure s ts name).1 = true := by
  intro ts
  induction ts with
  | nil => rintro ⟨u, hu, _⟩; exact absurd hu (List.not_mem_nil u)
  | cons t rest ih =>
    rintro ⟨u, hu, hne⟩
    by_cases ht : dns_records_get s t name = []
    · rw [check_pure_head_miss s t rest name ht]
      rcases List.mem_cons.mp hu with h | h
      · exact absurd (h ▸ ht) hne
      · exact ih ⟨u, h, hne⟩
    · rw [check_pure_head_hit s t rest name ht]

lemma check_pure_true (s : ZoneState) (name : String) :
    ∀ ts : List String, (check_pure s ts name).1 = true →
      ∃ u ∈ ts, dns_records_get s u name ≠ [] := by
  intro ts
  induction ts with
  | nil => intro h; simp [check_pure] at h
  | cons t rest ih =>
    intro h
    by_cases ht : dns_records_get s t name = []
    · rw [check_pure_head_miss s t rest name ht] at h
      obtain ⟨u, hu, hne⟩ := ih h
      exact ⟨u, by simp [hu], hne⟩
    · exact ⟨t, by simp, ht⟩

lemma aaaa_block_providerOk (s : ZoneState) :
    aaaa_block providerOk s =
      if (check_pure s ["AAAA", "A", "CNAME"] "@").1 then
        (.skipped ("An existing " ++ optStr (check_pure s ["AAAA", "A", "CNAME"] "@").2 ++
          " record prevents AAAA record creation for the apex."), s)
      else (.applied (some aaaa_record),
        { s with records := s.records ++ [aaaa_record] }) := by
  unfold aaaa_block
  rw [check_providerOk]
  simp [providerOk]

lemma spf_block_providerOk (s : ZoneState) :
    spf_block providerOk s =
      if (dns_records_get_type s "TXT").any (fun r => containsSub r.content "v=spf1") then
        (.skipped "Existing SPF record found. No new SPF record added.", s)
      else (.applied (some spf_record),
        { s with records := s.records ++ [spf_record] }) := by
  simp [spf_block, providerOk]

lemma settings_go_all (p : Provider) :
    ∀ ks : List String, (∀ k ∈ ks, p.settingOk k = true) →
      settings_go p ks = ⟨ks, ks, none⟩ := by
  intro ks
  induction ks with
  | nil => intro _; rfl
  | cons k rest ih =>
    intro h
    simp only [settings_go, h k (by simp), if_true]
    rw [ih (fun u hu => h u (by simp [hu]))]

lemma settings_go_fail (p : Provider) (k : String) (ts2 : List String)
    (hk : p.settingOk k = false) :
    ∀ ts1 : List String, (∀ u ∈ ts1, p.settingOk u = true) →
      settings_go p (ts1 ++ k :: ts2) =
        ⟨ts1, ts1 ++ [k], some ("Failed to update zone settings: " ++ k)⟩ := by
  intro ts1
  induction ts1 with
  | nil => intro _; simp [settings_go, hk]
  | cons u rest ih =>
    intro h
    rw [List.cons_append]
    simp only [settings_go, h u (by simp), if_true]
    rw [ih (fun v hv => h v (by simp [hv]))]
    simp

lemma spf_any_iff (s : ZoneState) :
    ((dns_records_get_type s "TXT").any
        (fun r => containsSub r.content "v=spf1") = true) ↔
      ∃ r ∈ s.records, r.rtype = "TXT" ∧ containsSub r.content "v=spf1" = true := by
  simp [dns_records_get_type, records_filter_type, List.any_eq_true,
    List.mem_filter, and_assoc]

lemma records_filter_append (l1 l2 : List DnsRecord) (t n : String) :
    records_filter (l1 ++ l2) t n = records_filter l1 t n ++ records_filter l2 t n := by
  simp [records_filter, List.filter_append]

lemma cfso_main_envAfter (w : World) :
    (cfso_main w).envAfter =
      env_pop (env_pop (env_pop w.env "CF_API_KEY") "CF_API_EMAIL") "CF_API_TOKEN" := by
  unfold cfso_main
  split <;> rfl

lemma cfso_main_body_argv2 (w : World) (h : w.argv.length = 2) :
    (cfso_main w).body = run_body w := by
  simp [cfso_main, h]

/-! ## Claims -/

/-- Claim C7: for every ordered type list and zone state (with the
provider succeeding), `check_dns_record_exists` returns `(true, some t)`
where `t` is the first type in the caller-supplied order with at least one
matching record — for any tail after `t`, so no later type influences the
result — and returns `(false, none)` when no type matches; consequently
the AAAA skip reason names the first conflicting type found in the order
AAAA, A, CNAME. -/
theorem C7_first_match :
    (∀ (s : ZoneState) (name : String) (ts1 : List String) (t : String)
        (ts2 : List String),
        (∀ u ∈ ts1, dns_records_get s u name = []) →
        dns_records_get s t name ≠ [] →
        check_dns_record_exists providerOk s (ts1 ++ t :: ts2) name =
          .ok (true, some t))
    ∧ (∀ (s : ZoneState) (name : String) (ts : List String),
        (∀ u ∈ ts, dns_records_get s u name = []) →
        check_dns_record_exists providerOk s ts name = .ok (false, none))
    ∧ (∀ (s : ZoneState) (t : String),
        check_dns_record_exists providerOk s ["AAAA", "A", "CNAME"] "@" =
          .ok (true, some t) →
        (aaaa_block providerOk s).1 =
          .skipped ("An existing " ++ t ++
            " record prevents AAAA record creation for the apex.")) := by
  refine ⟨?_, ?_, ?_⟩
  · intro s name ts1 t ts2 h1 ht
    rw [check_providerOk, check_pure_first s name t ts2 ht ts1 h1]
  · intro s name ts h
    rw [check_providerOk, check_pure_all_miss s name ts h]
  · intro s t h
    rw [check_providerOk] at h
    have hp : check_pure s ["AAAA", "A", "CNAME"] "@" = (true, some t) := by
      exact Except.ok.inj h
    rw [aaaa_block_providerOk, hp]
    rfl

/-- Witness for C7 at a concrete zone: an A record at the apex, queried in
the order AAAA, A, CNAME, is found at type A (first match after the AAAA
miss), with CNAME never influencing the result. -/
theorem C7_first_match_witness :
    check_dns_record_exists providerOk
        ⟨[⟨"A", "@", "192.0.2.1", 300, some false⟩], false⟩
        (["AAAA"] ++ "A" :: ["CNAME"]) "@" = .ok (true, some "A") :=
  C7_first_match.1 ⟨[⟨"A", "@", "192.0.2.1", 300, some false⟩], false⟩ "@"
    ["AAAA"] "A" ["CNAME"] (by decide) (by decide)

/-- Claim C9: for every zone with no existing A, AAAA, or CNAME record at
the apex (and the provider calls succeeding), the AAAA operation proposes
exactly the record with type AAAA, name `@`, content `100::`, ttl 120,
proxied true, and reports outcome Applied. -/
theorem C9_aaaa_creation (s : ZoneState)
    (h : ∀ r ∈ s.records,
      ¬(r.name = "@" ∧ (r.rtype = "A" ∨ r.rtype = "AAAA" ∨ r.rtype = "CNAME"))) :
    aaaa_block providerOk s =
      (.applied (some ⟨"AAAA", "@", "100::", 120, some true⟩),
       { s with records := s.records ++ [⟨"AAAA", "@", "100::", 120, some true⟩] }) := by
  have hmiss : ∀ u ∈ ["AAAA", "A", "CNAME"], dns_records_get s u "@" = [] := by
    intro u hu
    simp only [dns_records_get, records_filter, List.filter_eq_nil_iff]
    intro r hr
    have h2 := h r hr
    simp only [Bool.and_eq_true, beq_iff_eq, not_and]
    intro h3 h4
    apply h2
    refine ⟨h4, ?_⟩
    fin_cases hu
    · exact Or.inr (Or.inl h3)
    · exact Or.inl h3
    · exact Or.inr (Or.inr h3)
  rw [aaaa_block_providerOk, check_pure_all_miss s "@" _ hmiss]
  simp [aaaa_record]

/-- Witness for C9: the empty zone gets exactly the placeholder AAAA
record. -/
theorem C9_aaaa_creation_witness :
    aaaa_block providerOk ⟨[], false⟩ =
      (.applied (some ⟨"AAAA", "@", "100::", 120, some true⟩),
       ⟨[⟨"AAAA", "@", "100::", 120, some true⟩], false⟩) :=
  C9_aaaa_creation ⟨[], false⟩ (by decide)

/-- Modelled from the spec words of claim C2, for comparison with the
source: an SPF precondition that inspects the TXT records at the apex name
only.  The source has no such name filter. -/
def spf_exists_spec (s : ZoneState) : Bool :=
  (dns_records_get s "TXT" "@").any (fun r => containsSub r.content "v=spf1")

/-- Counterexample for C2: a zone whose only TXT record sits at a non-apex
name and carries `v=spf1`.  The apex-only precondition of the claim finds
no SPF record, yet the source skips the SPF creation, because its query
has no name filter. -/
theorem C2_counterexample :
    (spf_block providerOk
        ⟨[⟨"TXT", "mail.example.com", "v=spf1 include:mail -all", 300, none⟩],
         false⟩).1 =
      .skipped "Existing SPF record found. No new SPF record added."
    ∧ spf_exists_spec
        ⟨[⟨"TXT", "mail.example.com", "v=spf1 include:mail -all", 300, none⟩],
         false⟩ = false := by
  constructor
  · rfl
  · rfl

/-- Claim C2 as amended: the SPF precondition queries all TXT records of
the zone, at any name; the operation is skipped exactly when some existing
TXT content anywhere in the zone contains `v=spf1`, and otherwise exactly
one new TXT record with the hard-fail policy `v=spf1 -all` is appended at
the apex. -/
theorem C2_spf_operation (s : ZoneState) :
    ((∃ r ∈ s.records, r.rtype = "TXT" ∧ containsSub r.content "v=spf1" = true) →
      spf_block providerOk s =
        (.skipped "Existing SPF record found. No new SPF record added.", s))
    ∧ ((∀ r ∈ s.records, r.rtype = "TXT" → containsSub r.content "v=spf1" = false) →
      spf_block providerOk s =
        (.applied (some ⟨"TXT", "@", "v=spf1 -all", 120, none⟩),
         { s with records := s.records ++ [⟨"TXT", "@", "v=spf1 -all", 120, none⟩] })) := by
  constructor
  · intro hex
    rw [spf_block_providerOk, (spf_any_iff s).mpr hex]
    simp
  · intro hall
    have hc : (dns_records_get_type s "TXT").any
        (fun r => containsSub r.content "v=spf1") = false := by
      rw [Bool.eq_false_iff]
      intro hTrue
      obtain ⟨r, hr, ht, hsub⟩ := (spf_any_iff s).mp hTrue
      rw [hall r hr ht] at hsub
      exact Bool.false_ne_true hsub
    rw [spf_block_providerOk, hc]
    simp [spf_record]

/-- Witness for C2: a zone whose apex TXT record carries an SPF policy is
skipped; a zone with no SPF-tagged TXT content gets the hard-fail record. -/
theorem C2_spf_operation_witness :
    spf_block providerOk ⟨[⟨"TXT", "@", "v=spf1 include:x -all", 300, none⟩], false⟩ =
      (.skipped "Existing SPF record found. No new SPF record added.",
       ⟨[⟨"TXT", "@", "v=spf1 include:x -all", 300, none⟩], false⟩) :=
  (C2_spf_operation ⟨[⟨"TXT", "@", "v=spf1 include:x -all", 300, none⟩], false⟩).1
    (by decide)

/-- Claim C3 as amended: each setting in the fixed order is patched and
reported individually while patches succeed, but the six patches share one
exception handler, so a provider failure on one setting ends the loop:
the failure is reported once and the remaining settings are not attempted
in that run. -/
theorem C3_settings_block :
    (∀ p : Provider, (∀ k ∈ settings_keys, p.settingOk k = true) →
        settings_block p = ⟨settings_keys, settings_keys, none⟩)
    ∧ (∀ (p : Provider) (ts1 : List String) (k : String) (ts2 : List String),
        settings_keys = ts1 ++ k :: ts2 →
        (∀ u ∈ ts1, p.settingOk u = true) → p.settingOk k = false →
        settings_block p =
          ⟨ts1, ts1 ++ [k], some ("Failed to update zone settings: " ++ k)⟩) := by
  constructor
  · intro p h
    exact settings_go_all p settings_keys h
  · intro p ts1 k ts2 he h1 h2
    rw [settings_block, he]
    exact settings_go_fail p k ts2 h2 ts1 h1

/-- A provider whose patch raises exactly on the first setting `ssl`. -/
def pSslFail : Provider :=
  ⟨fun _ _ => true, true, fun _ => true, true, fun k => k != "ssl"⟩

/-- Witness for C3: when the `ssl` patch raises, the block reports the one
failure and no setting is reported as updated. -/
theorem C3_settings_block_witness :
    settings_block pSslFail =
      ⟨[], ["ssl"], some "Failed to update zone settings: ssl"⟩ :=
  C3_settings_block.2 pSslFail [] "ssl"
    ["min_tls_version", "tls_1_3", "always_use_https",
     "automatic_https_rewrites", "security_header"]
    (by decide) (by decide) (by decide)

/-- Counterexample for C3: with the `ssl` patch raising, only `ssl` is
ever attempted — `min_tls_version` and the four later settings are never
patched, refuting the claim that one failure does not prevent the
remaining settings from being attempted. -/
theorem C3_counterexample :
    settings_block pSslFail =
      ⟨[], ["ssl"], some "Failed to update zone settings: ssl"⟩
    ∧ "min_tls_version" ∉ (settings_block pSslFail).attempted := by
  constructor
  · rfl
  · decide

lemma aaaa_block_skip_of (s : ZoneState)
    (h : (check_pure s ["AAAA", "A", "CNAME"] "@").1 = true) :
    aaaa_block providerOk s =
      (.skipped ("An existing " ++ optStr (check_pure s ["AAAA", "A", "CNAME"] "@").2 ++
        " record prevents AAAA record creation for the apex."), s) := by
  rw [aaaa_block_providerOk, h]
  simp

lemma aaaa_block_create_of (s : ZoneState)
    (h : (check_pure s ["AAAA", "A", "CNAME"] "@").1 = false) :
    aaaa_block providerOk s =
      (.applied (some aaaa_record),
       { s with records := s.records ++ [aaaa_record] }) := by
  rw [aaaa_block_providerOk, h]
  simp

lemma spf_block_skip_of (s : ZoneState)
    (h : ∃ r ∈ s.records, r.rtype = "TXT" ∧ containsSub r.content "v=spf1" = true) :
    spf_block providerOk s =
      (.skipped "Existing SPF record found. No new SPF record added.", s) := by
  rw [spf_block_providerOk, (spf_any_iff s).mpr h]
  simp

lemma spf_block_create_of (s : ZoneState)
    (h : ¬∃ r ∈ s.records, r.rtype = "TXT" ∧ containsSub r.content "v=spf1" = true) :
    spf_block providerOk s =
      (.applied (some spf_record),
       { s with records := s.records ++ [spf_record] }) := by
  have hc : (dns_records_get_type s "TXT").any
      (fun r => containsSub r.content "v=spf1") = false := by
    rw [Bool.eq_false_iff]
    intro hTrue
    exact h ((spf_any_iff s).mp hTrue)
  rw [spf_block_providerOk, hc]
  simp

lemma records_filter_append_ne (l1 l2 : List DnsRecord) (t n : String)
    (h : records_filter l1 t n ≠ []) : records_filter (l1 ++ l2) t n ≠ [] := by
  rw [records_filter_append]
  simp only [ne_eq, List.append_eq_nil]
  tauto

lemma harden_snd (p : Provider) (s : ZoneState) :
    (harden p s).2 =
      (spf_block p (aaaa_block p (dnssec_block p s).2).2).2 := rfl

lemma sD_active (s : ZoneState) :
    ((dnssec_block providerOk s).2).dnssecActive = true := rfl

lemma aaaa_post (s : ZoneState) :
    ∃ u ∈ ["AAAA", "A", "CNAME"],
      dns_records_get (aaaa_block providerOk s).2 u "@" ≠ [] := by
  by_cases hA : (check_pure s ["AAAA", "A", "CNAME"] "@").1 = true
  · obtain ⟨u, hu, hne⟩ := check_pure_true s "@" _ hA
    rw [aaaa_block_skip_of s hA]
    exact ⟨u, hu, hne⟩
  · rw [aaaa_block_create_of s (by simpa using hA)]
    refine ⟨"AAAA", by simp, ?_⟩
    show records_filter (s.records ++ [aaaa_record]) "AAAA" "@" ≠ []
    rw [records_filter_append]
    simp [records_filter, aaaa_record]

lemma aaaa_records_extend (s : ZoneState) :
    ∃ l, (aaaa_block providerOk s).2.records = s.records ++ l
      ∧ (aaaa_block providerOk s).2.dnssecActive = s.dnssecActive := by
  by_cases hA : (check_pure s ["AAAA", "A", "CNAME"] "@").1 = true
  · rw [aaaa_block_skip_of s hA]
    exact ⟨[], by simp, rfl⟩
  · rw [aaaa_block_create_of s (by simpa using hA)]
    exact ⟨[aaaa_record], rfl, rfl⟩

lemma spf_post (s : ZoneState) :
    ∃ r ∈ (spf_block providerOk s).2.records,
      r.rtype = "TXT" ∧ containsSub r.content "v=spf1" = true := by
  by_cases hS : ∃ r ∈ s.records, r.rtype = "TXT" ∧ containsSub r.content "v=spf1" = true
  · rw [spf_block_skip_of s hS]
    exact hS
  · rw [spf_block_create_of s hS]
    exact ⟨spf_record, by simp, rfl, by decide⟩

lemma spf_records_extend (s : ZoneState) :
    ∃ l, (spf_block providerOk s).2.records = s.records ++ l
      ∧ (spf_block providerOk s).2.dnssecActive = s.dnssecActive := by
  by_cases hS : ∃ r ∈ s.records, r.rtype = "TXT" ∧ containsSub r.content "v=spf1" = true
  · rw [spf_block_skip_of s hS]
    exact ⟨[], by simp, rfl⟩
  · rw [spf_block_create_of s hS]
    exact ⟨[spf_record], rfl, rfl⟩

/-- Remote states in which every precondition of the run is already
satisfied: a conflicting record at the apex, an SPF-tagged TXT record
somewhere, and DNSSEC active. -/
def settledState (s : ZoneState) : Prop :=
  (∃ u ∈ ["AAAA", "A", "CNAME"], dns_records_get s u "@" ≠ [])
  ∧ (∃ r ∈ s.records, r.rtype = "TXT" ∧ containsSub r.content "v=spf1" = true)
  ∧ s.dnssecActive = true

lemma harden_post (s : ZoneState) : settledState (harden providerOk s).2 := by
  rw [harden_snd]
  obtain ⟨u, hu, hune⟩ := aaaa_post (dnssec_block providerOk s).2
  obtain ⟨l, hl, hact⟩ := spf_records_extend (aaaa_block providerOk (dnssec_block providerOk s).2).2
  refine ⟨⟨u, hu, ?_⟩, spf_post _, ?_⟩
  · show records_filter
      ((spf_block providerOk (aaaa_block providerOk (dnssec_block providerOk s).2).2).2).records
      u "@" ≠ []
    rw [hl]
    exact records_filter_append_ne _ _ _ _ hune
  · rw [hact]
    obtain ⟨l2, _, hact2⟩ := aaaa_records_extend (dnssec_block providerOk s).2
    rw [hact2]
    exact sD_active s

lemma set_dnssec_self (s : ZoneState) (h : s.dnssecActive = true) :
    ({ s with dnssecActive := true } : ZoneState) = s := by
  cases s
  simp_all

lemma harden_settled (s : ZoneState) (h : settledState s) :
    harden providerOk s =
      (⟨.applied none,
        .skipped ("An existing " ++ optStr (check_pure s ["AAAA", "A", "CNAME"] "@").2 ++
          " record prevents AAAA record creation for the apex."),
        ⟨settings_keys, settings_keys, none⟩,
        .skipped "Existing SPF record found. No new SPF record added."⟩, s) := by
  obtain ⟨h1, h2, h3⟩ := h
  have hD : dnssec_block providerOk s = (.applied none, s) := by
    have e0 : dnssec_block providerOk s =
        (Outcome.applied none, { s with dnssecActive := true }) := rfl
    rw [e0, set_dnssec_self s h3]
  have hA : (check_pure s ["AAAA", "A", "CNAME"] "@").1 = true :=
    check_pure_found s "@" _ h1
  have e1 : harden providerOk s =
      (⟨(dnssec_block providerOk s).1,
        (aaaa_block providerOk (dnssec_block providerOk s).2).1,
        settings_block providerOk,
        (spf_block providerOk (aaaa_block providerOk (dnssec_block providerOk s).2).2).1⟩,
       (spf_block providerOk (aaaa_block providerOk (dnssec_block providerOk s).2).2).2) := rfl
  rw [e1, hD]
  dsimp only
  rw [aaaa_block_skip_of s hA]
  dsimp only
  rw [spf_block_skip_of s h2]
  dsimp only
  rw [show settings_block providerOk =
    (⟨settings_keys, settings_keys, none⟩ : SettingsResult) from rfl]

/-- Claim C8: running the full operation set twice against an otherwise
unchanged remote (all provider calls succeeding) yields Skip outcomes on
the second run for the AAAA and SPF operations, leaves the remote state of
the second run identical to the state after the first (no duplicate
records), and applies the DNSSEC patch and all six settings patches on
both runs without error. -/
theorem C8_idempotent (s : ZoneState) :
    ((harden providerOk s).1.dnssec = .applied none)
    ∧ ((harden providerOk s).1.settings = ⟨settings_keys, settings_keys, none⟩)
    ∧ (∃ d, (harden providerOk (harden providerOk s).2).1.aaaa = .skipped d)
    ∧ ((harden providerOk (harden providerOk s).2).1.spf =
        .skipped "Existing SPF record found. No new SPF record added.")
    ∧ ((harden providerOk (harden providerOk s).2).1.dnssec = .applied none)
    ∧ ((harden providerOk (harden providerOk s).2).1.settings =
        ⟨settings_keys, settings_keys, none⟩)
    ∧ ((harden providerOk (harden providerOk s).2).2 = (harden providerOk s).2) := by
  have h2 := harden_settled _ (harden_post s)
  refine ⟨rfl, rfl, ?_, ?_, ?_, ?_, ?_⟩
  · exact ⟨_, by rw [h2]⟩
  · rw [h2]
  · rw [h2]
  · rw [h2]
  · rw [h2]

lemma successNote_not_mem_warn (j : PreloadJson) :
    PreloadEvent.successNote ∉ warn_events j := by
  unfold warn_events
  cases j.warnings with
  | none => simp
  | some ws => simp [List.mem_map]

/-- Counterexample for C1: a 200 response whose body has no `errors` key
(first input) prints nothing at all — no Success classification — because
the success line of the source is nested inside the branch taken only when
the `errors` key is present; only a present-but-empty `errors` array
(second input) yields the success line. -/
theorem C1_counterexample :
    submit_domain_to_hsts_preload ⟨200, some ⟨none, none⟩, ""⟩ = .ok []
    ∧ submit_domain_to_hsts_preload ⟨200, some ⟨some [], none⟩, ""⟩ =
        .ok [PreloadEvent.successNote] := ⟨rfl, rfl⟩

/-- Claim C1 as amended: a 200 response with a present, non-empty `errors`
array classifies as remote errors (one line per error, never a success
line); a 200 response with a present but empty `errors` array classifies
as Success; a 200 response with the `errors` key absent produces no
success or error classification at all (warnings are surfaced in every
200 case); a status other than 200 classifies as transport failure with
the status code and raw body. -/
theorem C1_preload_classification :
    (∀ (r : HttpResponse) (j : PreloadJson) (es : List PreloadMsg),
        r.status_code = 200 → r.jsonBody = some j → j.errors = some es → es ≠ [] →
        submit_domain_to_hsts_preload r =
          .ok (es.map (fun e => PreloadEvent.errorItem e.summary e.message) ++ warn_events j)
        ∧ PreloadEvent.successNote ∉
            (es.map (fun e => PreloadEvent.errorItem e.summary e.message) ++ warn_events j))
    ∧ (∀ (r : HttpResponse) (j : PreloadJson),
        r.status_code = 200 → r.jsonBody = some j → j.errors = some [] →
        submit_domain_to_hsts_preload r = .ok (PreloadEvent.successNote :: warn_events j))
    ∧ (∀ (r : HttpResponse) (j : PreloadJson),
        r.status_code = 200 → r.jsonBody = some j → j.errors = none →
        submit_domain_to_hsts_preload r = .ok (warn_events j)
        ∧ PreloadEvent.successNote ∉ warn_events j)
    ∧ (∀ r : HttpResponse, r.status_code ≠ 200 →
        submit_domain_to_hsts_preload r =
          .ok [PreloadEvent.transportFail r.status_code r.text]) := by
  refine ⟨?_, ?_, ?_, ?_⟩
  · intro r j es h200 hj he hne
    constructor
    · simp [submit_domain_to_hsts_preload, h200, hj, classify_preload,
        error_events, he, hne]
    · simp only [List.mem_append, List.mem_map]
      rintro (⟨e, _, habs⟩ | habs)
      · exact PreloadEvent.noConfusion habs
      · exact successNote_not_mem_warn j habs
  · intro r j h200 hj he
    simp [submit_domain_to_hsts_preload, h200, hj, classify_preload, error_events, he]
  · intro r j h200 hj he
    refine ⟨?_, successNote_not_mem_warn j⟩
    simp [submit_domain_to_hsts_preload, h200, hj, classify_preload, error_events, he]
  · intro r h200
    simp [submit_domain_to_hsts_preload, h200]

/-- Witness for C1 at concrete responses: a 404 is a transport failure, a
200 with one error entry yields exactly that error line. -/
theorem C1_preload_classification_witness :
    submit_domain_to_hsts_preload ⟨404, none, "not found"⟩ =
      .ok [PreloadEvent.transportFail 404 "not found"]
    ∧ submit_domain_to_hsts_preload
        ⟨200, some ⟨some [⟨"Missing HSTS header", "details"⟩], none⟩, ""⟩ =
      .ok [PreloadEvent.errorItem "Missing HSTS header" "details"] :=
  ⟨C1_preload_classification.2.2.2 ⟨404, none, "not found"⟩ (by decide),
   (C1_preload_classification.1 ⟨200, some ⟨some [⟨"Missing HSTS header", "details"⟩], none⟩, ""⟩
      ⟨some [⟨"Missing HSTS header", "details"⟩], none⟩
      [⟨"Missing HSTS header", "details"⟩] rfl rfl rfl (by decide)).1⟩

lemma check_error_first (p : Provider) (s : ZoneState) (name : String)
    (t : String) (ts2 : List String) (ht : p.queryOk t name = false) :
    ∀ ts1 : List String,
      (∀ u ∈ ts1, p.queryOk u name = true ∧ dns_records_get s u name = []) →
      check_dns_record_exists p s (ts1 ++ t :: ts2) name =
        .error ("CloudFlareAPIError " ++ t) := by
  intro ts1
  induction ts1 with
  | nil =>
    intro _
    simp [check_dns_record_exists, ht]
  | cons u rest ih =>
    intro h
    rw [List.cons_append]
    simp only [check_dns_record_exists, (h u (by simp)).1, if_true,
      (h u (by simp)).2, if_pos rfl]
    exact ih (fun v hv => h v (by simp [hv]))

/-- Counterexample for C6: with the AAAA query raising and an A record
present at the apex, the whole check aborts with the AAAA error — the A
check, which on its own would succeed and report the record, is never
performed — and the AAAA operation reports a single Failed outcome. -/
theorem C6_counterexample :
    check_dns_record_exists
        ⟨fun t _ => t != "AAAA", true, fun _ => true, true, fun _ => true⟩
        ⟨[⟨"A", "@", "192.0.2.1", 300, some false⟩], false⟩
        ["AAAA", "A", "CNAME"] "@" = .error "CloudFlareAPIError AAAA"
    ∧ check_dns_record_exists
        ⟨fun t _ => t != "AAAA", true, fun _ => true, true, fun _ => true⟩
        ⟨[⟨"A", "@", "192.0.2.1", 300, some false⟩], false⟩
        ["A", "CNAME"] "@" = .ok (true, some "A")
    ∧ aaaa_block
        ⟨fun t _ => t != "AAAA", true, fun _ => true, true, fun _ => true⟩
        ⟨[⟨"A", "@", "192.0.2.1", 300, some false⟩], false⟩ =
      (.failed "Failed to manage DNS records: CloudFlareAPIError AAAA",
       ⟨[⟨"A", "@", "192.0.2.1", 300, some false⟩], false⟩) := ⟨rfl, rfl, rfl⟩

/-- Claim C6 as amended: there is no per-type containment inside the
record-existence checker — a transiently failing provider query for one
type aborts the entire check with that error, the remaining types in the
list are not queried, and the caller's handler turns it into a single
Failed outcome for the AAAA operation, leaving the zone unchanged. -/
theorem C6_check_abort :
    (∀ (p : Provider) (s : ZoneState) (name : String) (ts1 : List String)
        (t : String) (ts2 : List String),
        (∀ u ∈ ts1, p.queryOk u name = true ∧ dns_records_get s u name = []) →
        p.queryOk t name = false →
        check_dns_record_exists p s (ts1 ++ t :: ts2) name =
          .error ("CloudFlareAPIError " ++ t))
    ∧ (∀ (p : Provider) (s : ZoneState) (e : String),
        check_dns_record_exists p s ["AAAA", "A", "CNAME"] "@" = .error e →
        aaaa_block p s = (.failed ("Failed to manage DNS records: " ++ e), s)) := by
  constructor
  · intro p s name ts1 t ts2 h1 ht
    exact check_error_first p s name t ts2 ht ts1 h1
  · intro p s e h
    unfold aaaa_block
    rw [h]

/-- Witness for C6: a provider failing on the A query aborts the check at
A even though CNAME follows in the list, and the AAAA operation fails. -/
theorem C6_check_abort_witness :
    check_dns_record_exists
        ⟨fun t _ => t != "A", true, fun _ => true, true, fun _ => true⟩
        ⟨[], false⟩ (["AAAA"] ++ "A" :: ["CNAME"]) "@" =
      .error "CloudFlareAPIError A" :=
  C6_check_abort.1
    ⟨fun t _ => t != "A", true, fun _ => true, true, fun _ => true⟩
    ⟨[], false⟩ "@" ["AAAA"] "A" ["CNAME"] (by decide) (by decide)

lemma submit_ok_of (r : HttpResponse) (h : r.status_code = 200 → r.jsonBody ≠ none) :
    ∃ evs, submit_domain_to_hsts_preload r = .ok evs := by
  by_cases h200 : r.status_code = 200
  · cases hj : r.jsonBody with
    | none => exact absurd hj (h h200)
    | some j =>
        exact ⟨classify_preload j, by simp [submit_domain_to_hsts_preload, h200, hj]⟩
  · exact ⟨[.transportFail r.status_code r.text],
      by simp [submit_domain_to_hsts_preload, h200]⟩

lemma run_completes (w : World) (z : String) (zs : List String) (r : HttpResponse)
    (h2 : w.argv.length = 2) (hz : w.zones = .ok (z :: zs)) (hnet : w.net = .ok r)
    (hjson : r.status_code = 200 → r.jsonBody ≠ none) :
    (cfso_main w).body.completion = true ∧ (cfso_main w).body.exitCode = 0
    ∧ (cfso_main w).body.preloadEvents ≠ none := by
  obtain ⟨evs, hevs⟩ := submit_ok_of r hjson
  have hps : preload_step w.net = .ok evs := by rw [hnet]; exact hevs
  rw [cfso_main_body_argv2 w h2]
  unfold run_body
  rw [hz]
  dsimp only
  rw [hps]
  exact ⟨rfl, rfl, by simp⟩

/-- Counterexample for C4: a raised transport exception from
`requests.post` (modelled as `.error`) is not caught anywhere, so the run
aborts without the final completion notice and the interpreter exits with
status 1, refuting the claim that the submission never raises past its
boundary. -/
theorem C4_counterexample :
    (cfso_main ⟨["cfso.py", "example.com"], fun _ => none, .ok ["Z1"], providerOk,
        ⟨[], false⟩, .error "requests.exceptions.ConnectionError"⟩).body.completion = false
    ∧ (cfso_main ⟨["cfso.py", "example.com"], fun _ => none, .ok ["Z1"], providerOk,
        ⟨[], false⟩, .error "requests.exceptions.ConnectionError"⟩).body.exitCode = 1
    ∧ (cfso_main ⟨["cfso.py", "example.com"], fun _ => none, .ok ["Z1"], providerOk,
        ⟨[], false⟩, .error "requests.exceptions.ConnectionError"⟩).body.preloadEvents =
      none := ⟨rfl, rfl, rfl⟩

/-- Claim C4 as amended: whenever the preload endpoint delivers an HTTP
response (any status code, with a decodable body in the 200 case), every
failure mode is represented in the reported result and the run continues
to the final completion notice with exit status 0; but a raised transport
exception or a JSON decode failure on a 200 response propagates uncaught
and aborts the run before the completion notice. -/
theorem C4_preload_boundary :
    (∀ (w : World) (z : String) (zs : List String) (r : HttpResponse),
        w.argv.length = 2 → w.zones = .ok (z :: zs) → w.net = .ok r →
        (r.status_code = 200 → r.jsonBody ≠ none) →
        (cfso_main w).body.completion = true ∧ (cfso_main w).body.exitCode = 0
        ∧ (cfso_main w).body.preloadEvents ≠ none)
    ∧ (∀ (w : World) (z : String) (zs : List String) (e : String),
        w.argv.length = 2 → w.zones = .ok (z :: zs) → w.net = .error e →
        (cfso_main w).body.completion = false ∧ (cfso_main w).body.exitCode = 1
        ∧ (cfso_main w).body.preloadEvents = none) := by
  constructor
  · intro w z zs r h2 hz hnet hjson
    exact run_completes w z zs r h2 hz hnet hjson
  · intro w z zs e h2 hz hnet
    have hps : preload_step w.net = .error e := by rw [hnet]; rfl
    rw [cfso_main_body_argv2 w h2]
    unfold run_body
    rw [hz]
    dsimp only
    rw [hps]
    exact ⟨rfl, rfl, rfl⟩

/-- Witness for C4: a delivered 200 response with empty error and warning
arrays lets the run print the completion notice. -/
theorem C4_preload_boundary_witness :
    (cfso_main ⟨["cfso.py", "example.com"], fun _ => none, .ok ["Z1"], providerOk,
        ⟨[], false⟩, .ok ⟨200, some ⟨some [], some []⟩, ""⟩⟩).body.completion = true :=
  (C4_preload_boundary.1
    ⟨["cfso.py", "example.com"], fun _ => none, .ok ["Z1"], providerOk,
        ⟨[], false⟩, .ok ⟨200, some ⟨some [], some []⟩, ""⟩⟩
    "Z1" [] ⟨200, some ⟨some [], some []⟩, ""⟩ rfl rfl rfl
    (fun _ => by simp)).1

/-- Counterexample for C5: with zero matching zones the run halts before
any hardening operation, but `main` just returns, so the process exit
status is 0, not non-zero as the claim states. -/
theorem C5_counterexample :
    (cfso_main ⟨["cfso.py", "example.com"], fun _ => none, .ok [], providerOk,
        ⟨[], false⟩, .ok ⟨200, some ⟨none, none⟩, ""⟩⟩).body.exitCode = 0
    ∧ (cfso_main ⟨["cfso.py", "example.com"], fun _ => none, .ok [], providerOk,
        ⟨[], false⟩, .ok ⟨200, some ⟨none, none⟩, ""⟩⟩).body.aaaaOutcome = none :=
  ⟨rfl, rfl⟩

/-- Claim C5 as amended: for every zone name with zero matching zones the
run halts before any hardening operation is attempted, but with exit
status 0; the exit status is non-zero exactly for a wrong argument count
(and for an uncaught preload exception, see C4); caught per-operation
failures never change the exit status. -/
theorem C5_exit_status :
    (∀ w : World, w.argv.length = 2 → w.zones = .ok [] →
        (cfso_main w).body.exitCode = 0
        ∧ (cfso_main w).body.dnssecOutcome = none
        ∧ (cfso_main w).body.aaaaOutcome = none
        ∧ (cfso_main w).body.settingsOutcome = none
        ∧ (cfso_main w).body.spfOutcome = none
        ∧ (cfso_main w).body.finalState = w.state
        ∧ (cfso_main w).body.completion = false)
    ∧ (∀ w : World, w.argv.length ≠ 2 → (cfso_main w).body.exitCode = 1)
    ∧ (∀ (w : World) (z : String) (zs : List String) (r : HttpResponse),
        w.argv.length = 2 → w.zones = .ok (z :: zs) → w.net = .ok r →
        (r.status_code = 200 → r.jsonBody ≠ none) →
        (cfso_main w).body.exitCode = 0) := by
  refine ⟨?_, ?_, ?_⟩
  · intro w h2 hz
    rw [cfso_main_body_argv2 w h2]
    unfold run_body
    rw [hz]
    exact ⟨rfl, rfl, rfl, rfl, rfl, rfl, rfl⟩
  · intro w h
    simp [cfso_main, h]
  · intro w z zs r h2 hz hnet hjson
    exact (run_completes w z zs r h2 hz hnet hjson).2.1

/-- Witness for C5: an empty zone lookup gives exit status 0 with no
hardening operation reached. -/
theorem C5_exit_status_witness :
    (cfso_main ⟨["cfso.py", "example.com"], fun _ => some "v", .ok [], providerOk,
        ⟨[], false⟩, .ok ⟨200, some ⟨none, none⟩, ""⟩⟩).body.exitCode = 0
    ∧ (cfso_main ⟨["cfso.py", "example.com"], fun _ => some "v", .ok [], providerOk,
        ⟨[], false⟩, .ok ⟨200, some ⟨none, none⟩, ""⟩⟩).body.spfOutcome = none :=
  ⟨(C5_exit_status.1 ⟨["cfso.py", "example.com"], fun _ => some "v", .ok [], providerOk,
      ⟨[], false⟩, .ok ⟨200, some ⟨none, none⟩, ""⟩⟩ rfl rfl).1,
   (C5_exit_status.1 ⟨["cfso.py", "example.com"], fun _ => some "v", .ok [], providerOk,
      ⟨[], false⟩, .ok ⟨200, some ⟨none, none⟩, ""⟩⟩ rfl rfl).2.2.2.2.1⟩

/-- Claim C10: at the start of every run, before the provider client is
initialized, exactly `CF_API_KEY`, `CF_API_EMAIL` and `CF_API_TOKEN` are
removed from the environment; every other key is untouched; the client is
initialized from the two module-level constants whenever it is initialized
at all, independently of the environment, so environment credentials are
never used. -/
theorem C10_env_scrub :
    (∀ w : World,
        (cfso_main w).envAfter "CF_API_KEY" = none
        ∧ (cfso_main w).envAfter "CF_API_EMAIL" = none
        ∧ (cfso_main w).envAfter "CF_API_TOKEN" = none)
    ∧ (∀ (w : World) (k : String),
        k ≠ "CF_API_KEY" → k ≠ "CF_API_EMAIL" → k ≠ "CF_API_TOKEN" →
        (cfso_main w).envAfter k = w.env k)
    ∧ (∀ w : World, w.argv.length = 2 →
        (cfso_main w).clientCreds = some (CLOUDFLARE_EMAIL, CLOUDFLARE_API_KEY))
    ∧ (∀ (w : World) (e : String → Option String),
        (cfso_main { w with env := e }).clientCreds = (cfso_main w).clientCreds) := by
  refine ⟨?_, ?_, ?_, ?_⟩
  · intro w
    rw [cfso_main_envAfter]
    refine ⟨?_, ?_, ?_⟩ <;> simp [env_pop]
  · intro w k h1 h2 h3
    rw [cfso_main_envAfter]
    simp [env_pop, h1, h2, h3]
  · intro w h
    simp [cfso_main, h]
  · intro w e
    by_cases h : w.argv.length = 2
    · have h2 : ({ w with env := e } : World).argv.length = 2 := h
      simp [cfso_main, h, h2]
    · have h2 : ¬({ w with env := e } : World).argv.length = 2 := h
      simp [cfso_main, h, h2]

/-- Witness for C10: with a secret in `CF_API_TOKEN` and data in other
variables, the token is gone after the run starts, other keys survive, and
the client credentials are the module constants. -/
theorem C10_env_scrub_witness :
    (cfso_main ⟨["cfso.py", "example.com"],
        (fun k => if k = "CF_API_TOKEN" then some "secret" else some "v"),
        .ok ["Z1"], providerOk, ⟨[], false⟩, .ok ⟨404, none, ""⟩⟩).envAfter "HOME" =
      some "v"
    ∧ (cfso_main ⟨["cfso.py", "example.com"],
        (fun k => if k = "CF_API_TOKEN" then some "secret" else some "v"),
        .ok ["Z1"], providerOk, ⟨[], false⟩, .ok ⟨404, none, ""⟩⟩).envAfter
        "CF_API_TOKEN" = none
    ∧ (cfso_main ⟨["cfso.py", "example.com"],
        (fun k => if k = "CF_API_TOKEN" then some "secret" else some "v"),
        .ok ["Z1"], providerOk, ⟨[], false⟩, .ok ⟨404, none, ""⟩⟩).clientCreds =
      some (CLOUDFLARE_EMAIL, CLOUDFLARE_API_KEY) :=
  ⟨C10_env_scrub.2.1 ⟨["cfso.py", "example.com"],
      (fun k => if k = "CF_API_TOKEN" then some "secret" else some "v"),
      .ok ["Z1"], providerOk, ⟨[], false⟩, .ok ⟨404, none, ""⟩⟩ "HOME"
      (by decide) (by decide) (by decide),
   (C10_env_scrub.1 ⟨["cfso.py", "example.com"],
      (fun k => if k = "CF_API_TOKEN" then some "secret" else some "v"),
      .ok ["Z1"], providerOk, ⟨[], false⟩, .ok ⟨404, none, ""⟩⟩).2.2,
   C10_env_scrub.2.2.1 ⟨["cfso.py", "example.com"],
      (fun k => if k = "CF_API_TOKEN" then some "secret" else some "v"),
      .ok ["Z1"], providerOk, ⟨[], false⟩, .ok ⟨404, none, ""⟩⟩ rfl⟩
